import Mathlib

/-!
# Verification of the raycast-vehicle demo (`src/src/main.js`)

Shallow embedding of the vehicle-dynamics core of the repository: the
input-to-force mapper (`Game.updateVehicle`), the vehicle/world construction
(`Game.initVehicle`, `Game` constructor), and the per-frame event order of the
animation loop (`Game.animate`).  Numeric values are embedded as rationals
(the source uses JS doubles; every constant in the source is an exact decimal,
so ℚ represents them exactly).
-/

set_option autoImplicit false

namespace Horza

/-- A 3-component vector, as used for positions, velocities and local offsets
(`CANNON.Vec3`). -/
structure Vec3 where
  x : ℚ
  y : ℚ
  z : ℚ
deriving DecidableEq, Repr

/-- The discrete input state (`this.inputs` in the `Game` constructor):
five independent boolean flags written by the keyboard handlers. -/
structure Inputs where
  forward : Bool
  backward : Bool
  left : Bool
  right : Bool
  brake : Bool
deriving DecidableEq, Repr

/-- A rigid body (`CANNON.Body`) restricted to the fields the source sets or
the claims mention: mass, position, linear and angular velocity. -/
structure Body where
  mass : ℚ
  position : Vec3
  velocity : Vec3
  angularVelocity : Vec3
deriving DecidableEq, Repr

/-- Derived per-wheel state recomputed by the external physics engine each
step (raycast result and world transform); the mapper never writes these. -/
structure WheelDerived where
  suspensionLength : ℚ
  worldTransformPos : Vec3
  rotation : ℚ
deriving DecidableEq, Repr

/-- Per-wheel state (`CANNON.WheelInfo`): the fixed tuning scalars given at
`addWheel` time, the three control fields written by the input mapper
(`steering`, `engineForce`, `brake`), and the derived fields. -/
structure WheelInfo where
  chassisConnectionPointLocal : Vec3
  radius : ℚ
  directionLocal : Vec3
  axleLocal : Vec3
  suspensionStiffness : ℚ
  suspensionRestLength : ℚ
  frictionSlip : ℚ
  dampingRelaxation : ℚ
  dampingCompression : ℚ
  maxSuspensionForce : ℚ
  rollInfluence : ℚ
  maxSuspensionTravel : ℚ
  customSlidingRotationalSpeed : ℚ
  useCustomSlidingRotationalSpeed : Bool
  steering : ℚ
  engineForce : ℚ
  brake : ℚ
  derived : WheelDerived
deriving DecidableEq, Repr

/-- The wheel options record built once in `initVehicle` (lines 114-129) and
mutated in place before each `addWheel` call. -/
structure WheelOptions where
  radius : ℚ
  directionLocal : Vec3
  suspensionStiffness : ℚ
  suspensionRestLength : ℚ
  frictionSlip : ℚ
  dampingRelaxation : ℚ
  dampingCompression : ℚ
  maxSuspensionForce : ℚ
  rollInfluence : ℚ
  axleLocal : Vec3
  chassisConnectionPointLocal : Vec3
  maxSuspensionTravel : ℚ
  customSlidingRotationalSpeed : ℚ
  useCustomSlidingRotationalSpeed : Bool
deriving DecidableEq, Repr

/-- The vehicle rig (`CANNON.RaycastVehicle`): the chassis body, the axis
index configuration, and the ordered list of wheels (order of `addWheel`
calls defines the wheel index). -/
structure RaycastVehicle where
  chassisBody : Body
  indexRightAxis : Nat
  indexUpAxis : Nat
  indexForwardAxis : Nat
  wheelInfos : List WheelInfo
deriving DecidableEq, Repr

/-- Builds the `WheelInfo` appended by `addWheel` from an options record: the
fixed scalars are copied (the engine clones the vectors, so later mutation of
the shared options object does not alias), and the control fields
`steering`/`engineForce`/`brake` start at 0 (the engine's `WheelInfo`
defaults, matching the spec's lifecycle: they are only ever overwritten by
the mapper). -/
def mkWheelInfo (o : WheelOptions) : WheelInfo :=
  { chassisConnectionPointLocal := o.chassisConnectionPointLocal
    radius := o.radius
    directionLocal := o.directionLocal
    axleLocal := o.axleLocal
    suspensionStiffness := o.suspensionStiffness
    suspensionRestLength := o.suspensionRestLength
    frictionSlip := o.frictionSlip
    dampingRelaxation := o.dampingRelaxation
    dampingCompression := o.dampingCompression
    maxSuspensionForce := o.maxSuspensionForce
    rollInfluence := o.rollInfluence
    maxSuspensionTravel := o.maxSuspensionTravel
    customSlidingRotationalSpeed := o.customSlidingRotationalSpeed
    useCustomSlidingRotationalSpeed := o.useCustomSlidingRotationalSpeed
    steering := 0
    engineForce := 0
    brake := 0
    derived := { suspensionLength := 0, worldTransformPos := ⟨0, 0, 0⟩, rotation := 0 } }

/-- Source `RaycastVehicle.addWheel(options)`: appends a wheel built from the current
options; the call order defines the wheel index. -/
def addWheel (v : RaycastVehicle) (o : WheelOptions) : RaycastVehicle :=
  { v with wheelInfos := v.wheelInfos ++ [mkWheelInfo o] }

/-- Source `RaycastVehicle.applyEngineForce(value, wheelIndex)`: sets the
`engineForce` field of the wheel at `wheelIndex`. -/
def applyEngineForce (v : RaycastVehicle) (value : ℚ) (wheelIndex : Nat) : RaycastVehicle :=
  { v with wheelInfos := v.wheelInfos.modify (fun w => { w with engineForce := value }) wheelIndex }

/-- Source `RaycastVehicle.setSteeringValue(value, wheelIndex)`: sets the `steering`
field of the wheel at `wheelIndex`. -/
def setSteeringValue (v : RaycastVehicle) (value : ℚ) (wheelIndex : Nat) : RaycastVehicle :=
  { v with wheelInfos := v.wheelInfos.modify (fun w => { w with steering := value }) wheelIndex }

/-- Source `RaycastVehicle.setBrake(value, wheelIndex)`: sets the `brake` field of
the wheel at `wheelIndex`. -/
def setBrake (v : RaycastVehicle) (value : ℚ) (wheelIndex : Nat) : RaycastVehicle :=
  { v with wheelInfos := v.wheelInfos.modify (fun w => { w with brake := value }) wheelIndex }

/-- Total read of the wheel at index `i` (the source indexes
`wheelInfos[i]` directly; all reachable states have exactly 4 wheels, so the
fallback value is never hit in any claim below). -/
def wheelAt (v : RaycastVehicle) (i : Nat) : WheelInfo :=
  v.wheelInfos.getD i (mkWheelInfo
    { radius := 0, directionLocal := ⟨0, 0, 0⟩, suspensionStiffness := 0,
      suspensionRestLength := 0, frictionSlip := 0, dampingRelaxation := 0,
      dampingCompression := 0, maxSuspensionForce := 0, rollInfluence := 0,
      axleLocal := ⟨0, 0, 0⟩, chassisConnectionPointLocal := ⟨0, 0, 0⟩,
      maxSuspensionTravel := 0, customSlidingRotationalSpeed := 0,
      useCustomSlidingRotationalSpeed := false })

/-- The world gravity set in the `Game` constructor (line 20):
`this.world.gravity.set(0, -9.82, 0)`. -/
def worldGravity : Vec3 := ⟨0, -(982 / 100), 0⟩

/-- The shared options record as configured at lines 114-129 of
`initVehicle` (before the per-wheel mutation of
`chassisConnectionPointLocal`). -/
def wheelOptionsBase : WheelOptions :=
  { radius := 2 / 5
    directionLocal := ⟨0, -1, 0⟩
    suspensionStiffness := 30
    suspensionRestLength := 3 / 10
    frictionSlip := 7 / 5
    dampingRelaxation := 23 / 10
    dampingCompression := 22 / 5
    maxSuspensionForce := 100000
    rollInfluence := 1 / 100
    axleLocal := ⟨-1, 0, 0⟩
    chassisConnectionPointLocal := ⟨1, 1, 0⟩
    maxSuspensionTravel := 3 / 10
    customSlidingRotationalSpeed := -30
    useCustomSlidingRotationalSpeed := true }

/-- Source `Game.initVehicle` (lines 97-147): chassis body of mass 1500 at
position (0, 4, 0) with initial angular velocity (0, 0, 0.5), wrapped in a
`RaycastVehicle` with axes (right = 0, up = 1, forward = 2), then four
`addWheel` calls in order front-left, front-right, rear-left, rear-right with
connection points (∓1, -0.4, ±1.5). -/
def initVehicle : RaycastVehicle :=
  let chassisBody : Body :=
    { mass := 1500
      position := ⟨0, 4, 0⟩
      velocity := ⟨0, 0, 0⟩
      angularVelocity := ⟨0, 0, 1 / 2⟩ }
  let v : RaycastVehicle :=
    { chassisBody := chassisBody
      indexRightAxis := 0
      indexUpAxis := 1
      indexForwardAxis := 2
      wheelInfos := [] }
  let v := addWheel v { wheelOptionsBase with chassisConnectionPointLocal := ⟨-1, -(2 / 5), 3 / 2⟩ }
  let v := addWheel v { wheelOptionsBase with chassisConnectionPointLocal := ⟨1, -(2 / 5), 3 / 2⟩ }
  let v := addWheel v { wheelOptionsBase with chassisConnectionPointLocal := ⟨-1, -(2 / 5), -(3 / 2)⟩ }
  let v := addWheel v { wheelOptionsBase with chassisConnectionPointLocal := ⟨1, -(2 / 5), -(3 / 2)⟩ }
  v

/-- Source `Game.updateVehicle` (lines 200-241), the input-to-force mapper: an
if/else-if chain for drive (engine force on wheels 2,3), steer (steering on
wheels 0,1) and brake (brake on all four wheels), with the constants
`engineForce = 1500`, `maxSteerVal = 0.5`, `brakeForce = 100`. -/
def updateVehicle (inputs : Inputs) (vehicle : RaycastVehicle) : RaycastVehicle :=
  let engineForce : ℚ := 1500
  let maxSteerVal : ℚ := 1 / 2
  let brakeForce : ℚ := 100
  -- Drive
  let v :=
    if inputs.forward then
      applyEngineForce (applyEngineForce vehicle (-engineForce) 2) (-engineForce) 3
    else if inputs.backward then
      applyEngineForce (applyEngineForce vehicle engineForce 2) engineForce 3
    else
      applyEngineForce (applyEngineForce vehicle 0 2) 0 3
  -- Steer
  let v :=
    if inputs.left then
      setSteeringValue (setSteeringValue v maxSteerVal 0) maxSteerVal 1
    else if inputs.right then
      setSteeringValue (setSteeringValue v (-maxSteerVal) 0) (-maxSteerVal) 1
    else
      setSteeringValue (setSteeringValue v 0 0) 0 1
  -- Brake
  let v :=
    if inputs.brake then
      setBrake (setBrake (setBrake (setBrake v brakeForce 0) brakeForce 1) brakeForce 2) brakeForce 3
    else
      setBrake (setBrake (setBrake (setBrake v 0 0) 0 1) 0 2) 0 3
  v

/-- The observable actions of one `Game.animate` invocation (lines 249-284),
in source order.  `stepPhysics` is the `world.step` call, `runUpdateVehicle`
the `updateVehicle` call, `updateWheelTransform i` the
`vehicle.updateWheelTransform(i)` call, and `readWheelTransform i` the read
of `wheelInfos[i].worldTransform` copied into the wheel visual. -/
inductive FrameEvent where
  | requestNextFrame : FrameEvent
  | getDelta : FrameEvent
  | stepPhysics : FrameEvent
  | runUpdateVehicle : FrameEvent
  | syncChassis : FrameEvent
  | updateWheelTransform : Nat → FrameEvent
  | readWheelTransform : Nat → FrameEvent
  | cameraFollow : FrameEvent
  | uiSpeed : FrameEvent
  | renderCall : FrameEvent
deriving DecidableEq, Repr, BEq

/-- The ordered event trace of one `animate` frame, transcribed from the body
of `Game.animate` (lines 249-284): schedule next frame, read the clock delta,
`world.step(1/60, delta)`, `updateVehicle()`, sync the chassis visual, then
for each wheel index 0..3 `updateWheelTransform(i)` followed by the copy of
`wheelInfos[i].worldTransform` into the visual, then camera, UI and render. -/
def animateEvents : List FrameEvent :=
  [.requestNextFrame, .getDelta, .stepPhysics, .runUpdateVehicle, .syncChassis,
   .updateWheelTransform 0, .readWheelTransform 0,
   .updateWheelTransform 1, .readWheelTransform 1,
   .updateWheelTransform 2, .readWheelTransform 2,
   .updateWheelTransform 3, .readWheelTransform 3,
   .cameraFollow, .uiSpeed, .renderCall]

/-- Position of the first occurrence of an event in the per-frame trace. -/
def evIdx (e : FrameEvent) : Nat := animateEvents.findIdx (· == e)

/-- Source `Game.animate` lines 252-253: the clock delta is passed unmodified to
`world.step` as its second argument (`timeSinceLastCalled`), together with
the fixed timestep `1/60` as its first; the repository applies no clamping
or finiteness check to the delta. -/
def animateStepArgs (delta : ℚ) : ℚ × ℚ := (1 / 60, delta)

/-- The engine-force value written to wheels 2 and 3 by the drive block of
`updateVehicle` (lines 205-215), as a function of the input flags. -/
def engVal (inp : Inputs) : ℚ :=
  if inp.forward then -1500 else if inp.backward then 1500 else 0

/-- The steering value written to wheels 0 and 1 by the steer block of
`updateVehicle` (lines 217-227). -/
def steerVal (inp : Inputs) : ℚ :=
  if inp.left then 1 / 2 else if inp.right then -(1 / 2) else 0

/-- The brake value written to all four wheels by the brake block of
`updateVehicle` (lines 229-240). -/
def brakeVal (inp : Inputs) : ℚ :=
  if inp.brake then 100 else 0

/-- Characterization of one mapper invocation on a 4-wheel vehicle: steering
of wheels 0,1 and engine force of wheels 2,3 are overwritten with the values
determined by the input flags, brake is overwritten on all four wheels, and
every other field (including the chassis body) is untouched. -/
theorem updateVehicle_wheelInfos (inp : Inputs) (v : RaycastVehicle)
    (w0 w1 w2 w3 : WheelInfo) (h : v.wheelInfos = [w0, w1, w2, w3]) :
    (updateVehicle inp v).wheelInfos =
      [{ w0 with steering := steerVal inp, brake := brakeVal inp },
       { w1 with steering := steerVal inp, brake := brakeVal inp },
       { w2 with engineForce := engVal inp, brake := brakeVal inp },
       { w3 with engineForce := engVal inp, brake := brakeVal inp }] := by
  rcases inp with ⟨f, b, l, r, br⟩
  cases f <;> cases b <;> cases l <;> cases r <;> cases br <;>
    simp [updateVehicle, applyEngineForce, setSteeringValue, setBrake,
      engVal, steerVal, brakeVal, h, List.modify, List.modifyTailIdx, List.modifyHead]

/-- The mapper never touches the chassis body. -/
theorem updateVehicle_chassisBody (inp : Inputs) (v : RaycastVehicle) :
    (updateVehicle inp v).chassisBody = v.chassisBody := by
  rcases inp with ⟨f, b, l, r, br⟩
  cases f <;> cases b <;> cases l <;> cases r <;> cases br <;>
    simp [updateVehicle, applyEngineForce, setSteeringValue, setBrake]

/-- The front-left wheel as appended by the first `addWheel` call. -/
def wheelFL : WheelInfo :=
  mkWheelInfo { wheelOptionsBase with chassisConnectionPointLocal := ⟨-1, -(2 / 5), 3 / 2⟩ }

/-- The front-right wheel as appended by the second `addWheel` call. -/
def wheelFR : WheelInfo :=
  mkWheelInfo { wheelOptionsBase with chassisConnectionPointLocal := ⟨1, -(2 / 5), 3 / 2⟩ }

/-- The rear-left wheel as appended by the third `addWheel` call. -/
def wheelRL : WheelInfo :=
  mkWheelInfo { wheelOptionsBase with chassisConnectionPointLocal := ⟨-1, -(2 / 5), -(3 / 2)⟩ }

/-- The rear-right wheel as appended by the fourth `addWheel` call. -/
def wheelRR : WheelInfo :=
  mkWheelInfo { wheelOptionsBase with chassisConnectionPointLocal := ⟨1, -(2 / 5), -(3 / 2)⟩ }

theorem initVehicle_wheelInfos :
    initVehicle.wheelInfos = [wheelFL, wheelFR, wheelRL, wheelRR] := rfl

/-- Modelled from the spec: the per-wheel part of the external physics
engine's `world.step` (the engine is a black box per §6, its code is not in
`src/`).  Per §3 and §4.1, the step recomputes each wheel's derived fields
(`suspensionLength`, `worldTransform`, rotation) in index order and does not
write the control fields `steering`/`engineForce`/`brake`, which are set only
by the Input-to-Force Mapper.  The actual numeric raycast/suspension
computation is abstracted as an arbitrary function `fW` of the wheel index
and current wheel state. -/
def stepWheels (fW : Nat → WheelInfo → WheelDerived) : Nat → List WheelInfo → List WheelInfo
  | _, [] => []
  | i, w :: ws => { w with derived := fW i w } :: stepWheels fW (i + 1) ws

/-- Modelled from the spec: one `world.step` call (external physics engine,
§6 black box).  It integrates the chassis body (abstracted as an arbitrary
body update `fB`, since the claims below do not depend on the integrator's
numerics) and recomputes each wheel's derived fields via `stepWheels`;
per §3/§4.1 it leaves the mapper-owned control fields unchanged. -/
def stepWorld (fB : Body → Body) (fW : Nat → WheelInfo → WheelDerived)
    (v : RaycastVehicle) : RaycastVehicle :=
  { v with chassisBody := fB v.chassisBody, wheelInfos := stepWheels fW 0 v.wheelInfos }

/-- One animation frame's effect on the vehicle state, in the source order of
`Game.animate` (lines 249-255): `world.step` first, then `updateVehicle`.
The physics of the step is abstracted per `stepWorld`. -/
def animateFrame (fB : Body → Body) (fW : Nat → WheelInfo → WheelDerived)
    (inp : Inputs) (v : RaycastVehicle) : RaycastVehicle :=
  updateVehicle inp (stepWorld fB fW v)

/-- A whole run of the animation loop: one frame per entry of the trace, each
frame carrying that frame's input flags and that frame's (abstracted) physics
update. -/
def runFrames : List (Inputs × (Body → Body) × (Nat → WheelInfo → WheelDerived)) →
    RaycastVehicle → RaycastVehicle
  | [], v => v
  | (inp, fB, fW) :: rest, v => runFrames rest (animateFrame fB fW inp v)

/-- Modelled from the spec: the external engine's longitudinal brake update
for one wheel-ground contact over one timestep (§4.1 step 4 — the formula is
internal to the physics engine, whose code is not in `src/`): the braking
impulse is proportional to `brk`, opposes the current longitudinal velocity
`v`, and cannot reverse motion — once longitudinal speed reaches zero under
braking, the brake force stops there; the engine-force contribution is then
added. -/
def longitudinalStep (engF brk dt v : ℚ) : ℚ :=
  (if 0 ≤ v then max 0 (v - brk * dt) else min 0 (v + brk * dt)) + engF * dt

/-- The state invariant maintained for the whole process lifetime: the
vehicle has exactly the four wheels added at initialization, the front
wheels (indices 0, 1) have engine force 0 and the rear wheels (indices 2, 3)
have steering 0. -/
def CtrlInv (v : RaycastVehicle) : Prop :=
  ∃ w0 w1 w2 w3 : WheelInfo, v.wheelInfos = [w0, w1, w2, w3] ∧
    w0.engineForce = 0 ∧ w1.engineForce = 0 ∧ w2.steering = 0 ∧ w3.steering = 0

theorem ctrlInv_initVehicle : CtrlInv initVehicle :=
  ⟨wheelFL, wheelFR, wheelRL, wheelRR, rfl, rfl, rfl, rfl, rfl⟩

theorem ctrlInv_stepWorld (fB : Body → Body) (fW : Nat → WheelInfo → WheelDerived)
    (v : RaycastVehicle) (h : CtrlInv v) : CtrlInv (stepWorld fB fW v) := by
  obtain ⟨w0, w1, w2, w3, hl, h0, h1, h2, h3⟩ := h
  refine ⟨{ w0 with derived := fW 0 w0 }, { w1 with derived := fW 1 w1 },
    { w2 with derived := fW 2 w2 }, { w3 with derived := fW 3 w3 },
    ?_, h0, h1, h2, h3⟩
  simp [stepWorld, hl, stepWheels]

theorem ctrlInv_updateVehicle (inp : Inputs) (v : RaycastVehicle)
    (h : CtrlInv v) : CtrlInv (updateVehicle inp v) := by
  obtain ⟨w0, w1, w2, w3, hl, h0, h1, h2, h3⟩ := h
  exact ⟨_, _, _, _, updateVehicle_wheelInfos inp v w0 w1 w2 w3 hl, h0, h1, h2, h3⟩

theorem ctrlInv_runFrames
    (trace : List (Inputs × (Body → Body) × (Nat → WheelInfo → WheelDerived)))
    (v : RaycastVehicle) (h : CtrlInv v) : CtrlInv (runFrames trace v) := by
  induction trace generalizing v with
  | nil => exact h
  | cons fr rest ih =>
    exact ih _ (ctrlInv_updateVehicle _ _ (ctrlInv_stepWorld _ _ _ h))

/-- C1 counterexample: with forward and backward (and left and right) all
held, the mapper does not net the conflicting inputs to zero: the drive
branch applies the forward engine force -1500 to wheel 2 (not the 0 of the
neither-held case), and the steer branch sets +0.5 on wheel 0 (not 0). -/
theorem updateVehicle_both_held_not_zero :
    (wheelAt (updateVehicle ⟨true, true, true, true, false⟩ initVehicle) 2).engineForce = -1500 ∧
    (wheelAt (updateVehicle ⟨true, true, true, true, false⟩ initVehicle) 2).engineForce ≠ 0 ∧
    (wheelAt (updateVehicle ⟨true, true, true, true, false⟩ initVehicle) 0).steering = 1 / 2 ∧
    (wheelAt (updateVehicle ⟨true, true, true, true, false⟩ initVehicle) 0).steering ≠ 0 := by
  have he : (wheelAt (updateVehicle ⟨true, true, true, true, false⟩ initVehicle) 2).engineForce
      = -1500 := rfl
  have hs : (wheelAt (updateVehicle ⟨true, true, true, true, false⟩ initVehicle) 0).steering
      = 1 / 2 := rfl
  refine ⟨he, ?_, hs, ?_⟩
  · rw [he]; norm_num
  · rw [hs]; norm_num

/-- C1 (amended): conflicting inputs are resolved by the if/else-if priority
of the mapper, not netted to zero: for every input state in which both
forward and backward are held, the forward branch wins and engine force
-1500 is applied to wheels 2 and 3 (exactly as when only forward is held);
for every input state in which both left and right are held, the left branch
wins and steering +0.5 is set on wheels 0 and 1 (exactly as when only left
is held). -/
theorem updateVehicle_conflict_priority (inp : Inputs) (v : RaycastVehicle)
    (w0 w1 w2 w3 : WheelInfo) (h : v.wheelInfos = [w0, w1, w2, w3]) :
    (inp.forward = true → inp.backward = true →
      (wheelAt (updateVehicle inp v) 2).engineForce = -1500 ∧
      (wheelAt (updateVehicle inp v) 3).engineForce = -1500) ∧
    (inp.left = true → inp.right = true →
      (wheelAt (updateVehicle inp v) 0).steering = 1 / 2 ∧
      (wheelAt (updateVehicle inp v) 1).steering = 1 / 2) := by
  have hw := updateVehicle_wheelInfos inp v w0 w1 w2 w3 h
  constructor
  · intro hf _hb
    constructor <;> simp [wheelAt, hw, engVal, hf]
  · intro hl _hr
    constructor <;> simp [wheelAt, hw, steerVal, hl]

/-- Witness for C1 (amended) at the all-held input on the initial vehicle,
with both inner conflicts discharged. -/
theorem updateVehicle_conflict_priority_witness :
    ((wheelAt (updateVehicle ⟨true, true, true, true, false⟩ initVehicle) 2).engineForce = -1500 ∧
     (wheelAt (updateVehicle ⟨true, true, true, true, false⟩ initVehicle) 3).engineForce = -1500) ∧
    ((wheelAt (updateVehicle ⟨true, true, true, true, false⟩ initVehicle) 0).steering = 1 / 2 ∧
     (wheelAt (updateVehicle ⟨true, true, true, true, false⟩ initVehicle) 1).steering = 1 / 2) :=
  ⟨(updateVehicle_conflict_priority ⟨true, true, true, true, false⟩ initVehicle
      wheelFL wheelFR wheelRL wheelRR rfl).1 rfl rfl,
   (updateVehicle_conflict_priority ⟨true, true, true, true, false⟩ initVehicle
      wheelFL wheelFR wheelRL wheelRR rfl).2 rfl rfl⟩

/-- C2 counterexample: in the per-frame trace of `Game.animate`,
`updateVehicle` runs exactly once, but it does not run before the physics
step — `world.step` precedes it. -/
theorem animate_update_not_before_step :
    animateEvents.count .runUpdateVehicle = 1 ∧
    ¬ evIdx .runUpdateVehicle < evIdx .stepPhysics := by decide

/-- C2 (amended): in every frame of the animation loop, `updateVehicle` is
executed exactly once, immediately after that frame's physics step (so the
intents read from the current input flags are in effect from the *next*
frame's step onward, not during the current frame's step). -/
theorem animate_update_once_after_step :
    animateEvents.count .runUpdateVehicle = 1 ∧
    animateEvents.count .stepPhysics = 1 ∧
    evIdx .stepPhysics < evIdx .runUpdateVehicle := by decide

/-- C3: for every frame and every wheel index 0..3, the wheel's world
transform is recomputed exactly once per frame by `updateWheelTransform i`,
after the chassis body has been integrated by that frame's `world.step` and
before the transform is read and copied into the wheel visual. -/
theorem animate_wheel_transform_order :
    ∀ i : Fin 4,
      animateEvents.count (.updateWheelTransform i.val) = 1 ∧
      evIdx .stepPhysics < evIdx (.updateWheelTransform i.val) ∧
      evIdx (.updateWheelTransform i.val) < evIdx (.readWheelTransform i.val) := by decide

/-- C4: braking never reverses the sign of motion (spec-modelled braking
update `longitudinalStep`, the formula being internal to the external
physics engine): from any nonnegative longitudinal speed, with zero engine
force, nonnegative brake and positive timestep, the speed after any number
of steps is still ≥ 0, and it is monotonically non-increasing from step to
step while the brake remains applied. -/
theorem brake_no_sign_reversal (brk dt v0 : ℚ) (n : Nat)
    (hb : 0 ≤ brk) (hdt : 0 < dt) (hv : 0 ≤ v0) :
    0 ≤ (fun v => longitudinalStep 0 brk dt v)^[n] v0 ∧
    (fun v => longitudinalStep 0 brk dt v)^[n + 1] v0 ≤
      (fun v => longitudinalStep 0 brk dt v)^[n] v0 := by
  have key : ∀ w : ℚ, 0 ≤ w →
      0 ≤ longitudinalStep 0 brk dt w ∧ longitudinalStep 0 brk dt w ≤ w := by
    intro w hw
    have hbd : 0 ≤ brk * dt := mul_nonneg hb hdt.le
    constructor
    · simp only [longitudinalStep, if_pos hw, zero_mul, add_zero]
      exact le_max_left _ _
    · simp only [longitudinalStep, if_pos hw, zero_mul, add_zero]
      exact max_le hw (by linarith)
  have main : ∀ m : Nat, 0 ≤ (fun v => longitudinalStep 0 brk dt v)^[m] v0 := by
    intro m
    induction m with
    | zero => simpa using hv
    | succ k ih =>
      rw [Function.iterate_succ_apply']
      exact (key _ ih).1
  refine ⟨main n, ?_⟩
  rw [Function.iterate_succ_apply']
  exact (key _ (main n)).2

/-- Witness for C4 at brake 100, timestep 1/60, initial speed 10, 3 steps. -/
theorem brake_no_sign_reversal_witness :
    0 ≤ (fun v => longitudinalStep 0 100 (1 / 60) v)^[3] 10 ∧
    (fun v => longitudinalStep 0 100 (1 / 60) v)^[3 + 1] 10 ≤
      (fun v => longitudinalStep 0 100 (1 / 60) v)^[3] 10 :=
  brake_no_sign_reversal 100 (1 / 60) 10 3 (by norm_num) (by norm_num) (by norm_num)

/-- C5: the mapper's steering policy on a 4-wheel vehicle: left held and
right not held sets +0.5 (= maxSteerVal) on wheels 0 and 1; right held and
left not held sets -0.5; neither held sets 0; and in every case the steering
written to each front wheel lies in [-0.5, +0.5]. -/
theorem updateVehicle_steering_policy (inp : Inputs) (v : RaycastVehicle)
    (w0 w1 w2 w3 : WheelInfo) (h : v.wheelInfos = [w0, w1, w2, w3]) :
    ((inp.left = true ∧ inp.right = false) →
        (wheelAt (updateVehicle inp v) 0).steering = 1 / 2 ∧
        (wheelAt (updateVehicle inp v) 1).steering = 1 / 2) ∧
    ((inp.right = true ∧ inp.left = false) →
        (wheelAt (updateVehicle inp v) 0).steering = -(1 / 2) ∧
        (wheelAt (updateVehicle inp v) 1).steering = -(1 / 2)) ∧
    ((inp.left = false ∧ inp.right = false) →
        (wheelAt (updateVehicle inp v) 0).steering = 0 ∧
        (wheelAt (updateVehicle inp v) 1).steering = 0) ∧
    (-(1 / 2) ≤ (wheelAt (updateVehicle inp v) 0).steering ∧
      (wheelAt (updateVehicle inp v) 0).steering ≤ 1 / 2 ∧
      -(1 / 2) ≤ (wheelAt (updateVehicle inp v) 1).steering ∧
      (wheelAt (updateVehicle inp v) 1).steering ≤ 1 / 2) := by
  have hw := updateVehicle_wheelInfos inp v w0 w1 w2 w3 h
  have h0 : (wheelAt (updateVehicle inp v) 0).steering = steerVal inp := by
    simp [wheelAt, hw]
  have h1 : (wheelAt (updateVehicle inp v) 1).steering = steerVal inp := by
    simp [wheelAt, hw]
  rw [h0, h1]
  rcases inp with ⟨f, b, l, r, br⟩
  cases l <;> cases r <;> simp [steerVal]

/-- Witness for C5 at the left-only input on the initial vehicle. -/
theorem updateVehicle_steering_policy_witness :
    (wheelAt (updateVehicle ⟨false, false, true, false, false⟩ initVehicle) 0).steering = 1 / 2 ∧
    (wheelAt (updateVehicle ⟨false, false, true, false, false⟩ initVehicle) 1).steering = 1 / 2 :=
  (updateVehicle_steering_policy ⟨false, false, true, false, false⟩ initVehicle
    wheelFL wheelFR wheelRL wheelRR rfl).1 ⟨rfl, rfl⟩

/-- C6: the mapper's brake policy is uniform over all four wheels: the brake
field of every wheel 0..3 is overwritten (not accumulated) with the fixed
brakeForce 100 when the brake flag is true and with 0 when it is false —
the written value does not depend on the wheel's previous brake value. -/
theorem updateVehicle_brake_policy (inp : Inputs) (v : RaycastVehicle)
    (w0 w1 w2 w3 : WheelInfo) (h : v.wheelInfos = [w0, w1, w2, w3]) :
    ∀ i : Fin 4, (wheelAt (updateVehicle inp v) i.val).brake =
      if inp.brake then 100 else 0 := by
  have hw := updateVehicle_wheelInfos inp v w0 w1 w2 w3 h
  intro i
  fin_cases i <;> simp [wheelAt, hw, brakeVal]

/-- Witness for C6 at the brake-only input on the initial vehicle. -/
theorem updateVehicle_brake_policy_witness :
    (wheelAt (updateVehicle ⟨false, false, false, false, true⟩ initVehicle) 0).brake = 100 ∧
    (wheelAt (updateVehicle ⟨false, false, false, false, true⟩ initVehicle) 1).brake = 100 ∧
    (wheelAt (updateVehicle ⟨false, false, false, false, true⟩ initVehicle) 2).brake = 100 ∧
    (wheelAt (updateVehicle ⟨false, false, false, false, true⟩ initVehicle) 3).brake = 100 := by
  have h := updateVehicle_brake_policy ⟨false, false, false, false, true⟩ initVehicle
    wheelFL wheelFR wheelRL wheelRR rfl
  exact ⟨by simpa using h ⟨0, by norm_num⟩, by simpa using h ⟨1, by norm_num⟩,
    by simpa using h ⟨2, by norm_num⟩, by simpa using h ⟨3, by norm_num⟩⟩

/-- C7: vehicle initialization constructs exactly the configuration the
spec's scenarios assume: chassis mass 1500 at height 4, world gravity
(0, -9.82, 0), and exactly 4 wheels appended in order front-left,
front-right, rear-left, rear-right at the symmetric mounts (±1, -0.4, ±1.5)
(with the forward axis being the z axis, index 2, so wheels 0/1 are the
front pair at z = +1.5 and wheels 2/3 the rear pair at z = -1.5). -/
theorem initVehicle_configuration :
    initVehicle.chassisBody.mass = 1500 ∧
    initVehicle.chassisBody.position = ⟨0, 4, 0⟩ ∧
    worldGravity = ⟨0, -(982 / 100), 0⟩ ∧
    initVehicle.wheelInfos.length = 4 ∧
    initVehicle.wheelInfos.map (fun w => w.chassisConnectionPointLocal) =
      [⟨-1, -(2 / 5), 3 / 2⟩, ⟨1, -(2 / 5), 3 / 2⟩,
       ⟨-1, -(2 / 5), -(3 / 2)⟩, ⟨1, -(2 / 5), -(3 / 2)⟩] ∧
    initVehicle.indexForwardAxis = 2 ∧
    initVehicle.indexUpAxis = 1 ∧
    initVehicle.indexRightAxis = 0 :=
  ⟨rfl, rfl, rfl, rfl, rfl, rfl, rfl, rfl⟩

/-- C8 counterexample: at elapsed delta -1 (a degenerate `dt ≤ 0`), the
value the repository passes into the physics step is the raw -1 itself, not
a positive clamp — no clamping to a minimum positive value happens before
the step is invoked. -/
theorem animate_delta_not_clamped :
    (animateStepArgs (-1)).2 = -1 ∧ ¬ (0 < (animateStepArgs (-1)).2) := by
  have h : (animateStepArgs (-1)).2 = -1 := rfl
  refine ⟨h, ?_⟩
  rw [h]; norm_num

/-- C8 (amended): the repository performs no degenerate-timestep clamping:
for every frame, the elapsed clock delta is handed to the physics step
unmodified as its second argument, while the first argument — the fixed
integration timestep — is the constant, positive 1/60. -/
theorem animate_delta_passthrough (delta : ℚ) :
    animateStepArgs delta = (1 / 60, delta) ∧ 0 < (animateStepArgs delta).1 := by
  refine ⟨rfl, ?_⟩
  show (0 : ℚ) < 1 / 60
  norm_num

/-- C9: across every run of the animation loop (any number of frames, any
input flags, any behaviour of the abstracted physics step), the per-frame
update calls `applyEngineForce` only on wheel indices 2 and 3 and
`setSteeringValue` only on 0 and 1, so the engine-force field of the front
wheels (0, 1) and the steering field of the rear wheels (2, 3) remain 0 for
the entire process lifetime. -/
theorem mapper_index_discipline
    (trace : List (Inputs × (Body → Body) × (Nat → WheelInfo → WheelDerived))) :
    (wheelAt (runFrames trace initVehicle) 0).engineForce = 0 ∧
    (wheelAt (runFrames trace initVehicle) 1).engineForce = 0 ∧
    (wheelAt (runFrames trace initVehicle) 2).steering = 0 ∧
    (wheelAt (runFrames trace initVehicle) 3).steering = 0 := by
  obtain ⟨w0, w1, w2, w3, hl, h0, h1, h2, h3⟩ :=
    ctrlInv_runFrames trace initVehicle ctrlInv_initVehicle
  exact ⟨by simp [wheelAt, hl, h0], by simp [wheelAt, hl, h1],
    by simp [wheelAt, hl, h2], by simp [wheelAt, hl, h3]⟩

/-- C10: the chassis body is created with the non-zero initial angular
velocity (0, 0, 0.5) — a deliberate roll-axis kickstart, so every simulation
run starts with this spin even under all-false inputs. -/
theorem initVehicle_initial_spin :
    initVehicle.chassisBody.angularVelocity = ⟨0, 0, 1 / 2⟩ ∧
    initVehicle.chassisBody.angularVelocity ≠ (⟨0, 0, 0⟩ : Vec3) := by
  have h : initVehicle.chassisBody.angularVelocity = ⟨0, 0, 1 / 2⟩ := rfl
  refine ⟨h, ?_⟩
  rw [h]
  intro hc
  have hz : (1 / 2 : ℚ) = 0 := congrArg Vec3.z hc
  norm_num at hz

end Horza
